import Mathlib

/-!
Shallow embedding of the task/workflow orchestration layer of the SuperMon
backend: the AgentManager orchestrator and its five agents
(backend/app/services/agent_manager.py, backend/app/services/agents/) and
the MCPManager service registry (backend/app/services/mcp_manager.py).
Python dicts are modelled as insertion-ordered association lists, machine
timestamps as natural numbers, raised exceptions as Except errors.
-/

/-- Agent capabilities, from the AgentType str-enum in agent_manager.py. -/
inductive AgentType where
  | requirements
  | planning
  | development
  | testing
  | communication
  deriving DecidableEq, BEq

/-- The string value of each AgentType enum member. -/
def agentTypeValue : AgentType → String
  | .requirements => "requirements"
  | .planning => "planning"
  | .development => "development"
  | .testing => "testing"
  | .communication => "communication"

/-- JSON-like values: the Python None/bool/int/str/list/dict payloads that
flow through the orchestration layer. -/
inductive Val where
  | vnull : Val
  | vbool : Bool → Val
  | vnat : Nat → Val
  | vstr : String → Val
  | vlist : List Val → Val
  | vobj : List (String × Val) → Val

/-- Python exceptions raised by the embedded code. Each constructor carries
the exception message. invalidTransition never occurs in the code; it exists
so that the spec claim about it can be stated. -/
inductive PyError where
  | unknownTaskVariant : String → PyError
  | taskNotFound : String → PyError
  | agentUnavailable : String → PyError
  | attributeError : String → PyError
  | typeError : String → PyError
  | runtimeError : String → PyError
  | serviceUnknown : String → PyError
  | serviceUnavailable : String → PyError
  | upstreamError : String → PyError
  | invalidTransition : String → PyError
  | agentError : String → PyError
  deriving DecidableEq

/-- The message text of an exception, as Python str(e) of the raised
exception object. -/
def errStr : PyError → String
  | .unknownTaskVariant s => s
  | .taskNotFound s => s
  | .agentUnavailable s => s
  | .attributeError s => s
  | .typeError s => s
  | .runtimeError s => s
  | .serviceUnknown s => s
  | .serviceUnavailable s => s
  | .upstreamError s => s
  | .invalidTransition s => s
  | .agentError s => s

/-- Lookup in a Python dict modelled as an insertion-ordered association
list: the first binding of the key, if any (keys are kept unique by
dictInsert). -/
def dictGet {κ α : Type} [BEq κ] : List (κ × α) → κ → Option α
  | [], _ => none
  | (k, v) :: rest, key => if k == key then some v else dictGet rest key

/-- Key membership test of a Python dict. -/
def dictContainsKey {κ α : Type} [BEq κ] : List (κ × α) → κ → Bool
  | [], _ => false
  | (k, _) :: rest, key => k == key || dictContainsKey rest key

/-- Assignment d[key] = v on a Python dict: overwrite in place when the key
exists, append at the end otherwise (CPython insertion-order semantics). -/
def dictInsert {κ α : Type} [BEq κ] : List (κ × α) → κ → α → List (κ × α)
  | [], key, v => [(key, v)]
  | (k, w) :: rest, key, v =>
    if k == key then (key, v) :: rest else (k, w) :: dictInsert rest key v

theorem dictGet_insert_self {κ α : Type} [BEq κ] [LawfulBEq κ]
    (l : List (κ × α)) (k : κ) (v : α) : dictGet (dictInsert l k v) k = some v := by
  induction l with
  | nil => simp [dictInsert, dictGet]
  | cons p rest ih =>
    obtain ⟨pk, pv⟩ := p
    by_cases h : pk = k
    · subst h; simp [dictInsert, dictGet]
    · simp [dictInsert, dictGet, h, ih]

theorem dictGet_insert_ne {κ α : Type} [BEq κ] [LawfulBEq κ]
    (l : List (κ × α)) (k k' : κ) (v : α) (h : k ≠ k') :
    dictGet (dictInsert l k v) k' = dictGet l k' := by
  induction l with
  | nil => simp [dictInsert, dictGet, h]
  | cons p rest ih =>
    obtain ⟨pk, pv⟩ := p
    by_cases hp : pk = k
    · subst hp; simp [dictInsert, dictGet, h]
    · simp [dictInsert, dictGet, hp, ih]

theorem dictInsert_not_contains {κ α : Type} [BEq κ] [LawfulBEq κ]
    (l : List (κ × α)) (k : κ) (v : α) (h : dictContainsKey l k = false) :
    dictInsert l k v = l ++ [(k, v)] := by
  induction l with
  | nil => simp [dictInsert]
  | cons p rest ih =>
    obtain ⟨pk, pv⟩ := p
    simp [dictContainsKey] at h
    simp [dictInsert, h.1, ih h.2]

theorem dictContainsKey_append {κ α : Type} [BEq κ]
    (l₁ l₂ : List (κ × α)) (k : κ) :
    dictContainsKey (l₁ ++ l₂) k = (dictContainsKey l₁ k || dictContainsKey l₂ k) := by
  induction l₁ with
  | nil => simp [dictContainsKey]
  | cons p rest ih =>
    obtain ⟨pk, pv⟩ := p
    simp [dictContainsKey, ih, Bool.or_assoc]

theorem dictInsert_append_last {κ α : Type} [BEq κ] [LawfulBEq κ]
    (l : List (κ × α)) (k : κ) (v w : α) (h : dictContainsKey l k = false) :
    dictInsert (l ++ [(k, v)]) k w = l ++ [(k, w)] := by
  induction l with
  | nil => simp [dictInsert]
  | cons p rest ih =>
    obtain ⟨pk, pv⟩ := p
    simp [dictContainsKey] at h
    simp [dictInsert, h.1, ih h.2]

/-- Python type name of a value, used in exception messages. -/
def pyTypeName : Val → String
  | .vnull => "NoneType"
  | .vbool _ => "bool"
  | .vnat _ => "int"
  | .vstr _ => "str"
  | .vlist _ => "list"
  | .vobj _ => "dict"

/-- Rendering of a value inside a Python f-string. Exact for the strings and
numbers the dispatch messages interpolate; schematic for containers. -/
def pyStr : Val → String
  | .vnull => "None"
  | .vbool true => "True"
  | .vbool false => "False"
  | .vnat n => toString n
  | .vstr s => s
  | .vlist _ => "[...]"
  | .vobj _ => "{...}"

/-- Python iteration over a value: lists yield their elements, strings yield
one-character strings, dicts yield their keys; None, bools and ints raise
TypeError. -/
def pyIterate : Val → Except PyError (List Val)
  | .vlist l => .ok l
  | .vstr s => .ok (s.data.map fun c => .vstr (String.mk [c]))
  | .vobj l => .ok (l.map fun p => .vstr p.1)
  | v => .error (.typeError (pyTypeName v ++ " object is not iterable"))

/-- Substring containment, Python pat in s for a nonempty pattern. -/
def strContains (s pat : String) : Bool := (s.splitOn pat).length != 1

/-- A requirement record (the pydantic Requirement model in
requirements_agent.py). The float confidence 0.5 is carried textually; the
extracted_at datetime is carried as its timestamp. -/
structure Requirement where
  id : String
  title : String
  description : String
  category : String
  priority : String
  source : String
  confidence : String
  extracted_at : Nat
  metadata : List (String × Val)

/-- The dict form req.dict() of a requirement, as returned to callers. -/
def Requirement.toDict (r : Requirement) : Val :=
  .vobj [("id", .vstr r.id), ("title", .vstr r.title),
    ("description", .vstr r.description), ("category", .vstr r.category),
    ("priority", .vstr r.priority), ("source", .vstr r.source),
    ("confidence", .vstr r.confidence), ("extracted_at", .vnat r.extracted_at),
    ("metadata", .vobj r.metadata)]

/-- Isoformat rendering of a timestamp, modelled by its decimal rendering. -/
def isoformat (t : Nat) : String := toString t

/-- The keyword list scanned by basic requirement extraction. -/
def requirementKeywords : List String :=
  ["need", "require", "must", "should", "want", "expect",
   "feature", "functionality", "capability", "system",
   "user", "admin", "interface", "dashboard", "report"]

/-- Sentence scan of RequirementsAgent._basic_requirement_extraction: split
the lowercased text on periods and turn every sentence containing a keyword
into a Requirement whose id is indexed by the running count. -/
def extractFromText (now : Nat) (text : String) : List Requirement :=
  (text.splitOn ".").foldl
    (fun acc sentence =>
      if requirementKeywords.any (fun kw => strContains sentence kw) then
        acc ++ [{ id := "req_" ++ toString now ++ "_" ++ toString acc.length,
                  title := "Requirement from conversation",
                  description := sentence.trim,
                  category := "functional", priority := "medium",
                  source := "conversation", confidence := "0.5",
                  extracted_at := now, metadata := [] }]
      else acc) []

/-- RequirementsAgent._basic_requirement_extraction: the AI-free extraction
path taken when no Gemini model is configured. A conversation that is not a
dict, or whose content field is not a string, raises as in Python. -/
def RequirementsAgent.basic_requirement_extraction (now : Nat) (conversation : Val) :
    Except PyError (List Requirement) :=
  match conversation with
  | .vobj fields =>
    match dictGet fields "content" with
    | some (.vstr s) => .ok (extractFromText now s.toLower)
    | some v => .error (.attributeError (pyTypeName v ++ " object has no attribute lower"))
    | none => .ok (extractFromText now "")
  | v => .error (.attributeError (pyTypeName v ++ " object has no attribute get"))

/-- The conversation loop of RequirementsAgent._extract_requirements,
extending the accumulated requirement list conversation by conversation. -/
def RequirementsAgent.analyze_conversations (now : Nat) :
    List Val → Except PyError (List Requirement)
  | [] => .ok []
  | c :: cs =>
    match RequirementsAgent.basic_requirement_extraction now c with
    | .error e => .error e
    | .ok rs =>
      match RequirementsAgent.analyze_conversations now cs with
      | .error e => .error e
      | .ok rest => .ok (rs ++ rest)

/-- RequirementsAgent._categorize_requirements: count requirements per
category into an insertion-ordered dict. -/
def RequirementsAgent.categorize_requirements (reqs : List Requirement) :
    List (String × Nat) :=
  reqs.foldl (fun acc r => dictInsert acc r.category (((dictGet acc r.category).getD 0) + 1)) []

/-- RequirementsAgent._extract_requirements on the Gemini-free path:
_merge_requirements returns its input unchanged and the summary is the
fixed fallback sentence, as in the source when no model is configured. -/
def RequirementsAgent.extract_requirements (now : Nat) (fields : List (String × Val)) :
    Except PyError Val :=
  match pyIterate ((dictGet fields "conversations").getD (.vlist [])) with
  | .error e => .error e
  | .ok conversations =>
    match RequirementsAgent.analyze_conversations now conversations with
    | .error e => .error e
    | .ok merged =>
      .ok (.vobj [("project_id", (dictGet fields "project_id").getD .vnull),
        ("requirements", .vlist (merged.map Requirement.toDict)),
        ("summary", .vstr ("Extracted " ++ toString merged.length ++
          " requirements across different categories.")),
        ("total_count", .vnat merged.length),
        ("categories", .vobj ((RequirementsAgent.categorize_requirements merged).map
          fun p => (p.1, Val.vnat p.2))),
        ("extracted_at", .vstr (isoformat now))])

/-- Validation of one requirement record inside
RequirementsAgent._validate_requirements. -/
def RequirementsAgent.validate_one (req : Val) : Except PyError Val :=
  match req with
  | .vobj f =>
    match (dictGet f "description").getD (.vstr "") with
    | .vstr d =>
      let dl := d.toLower
      let isComplete := d.length > 10
      let isSpecific := strContains dl "specific"
      let hasAcceptance := strContains dl "when" || strContains dl "then"
      let suggestions :=
        (if isComplete then [] else ["Add more detailed description"]) ++
        (if isSpecific then [] else ["Make requirement more specific"]) ++
        (if hasAcceptance then [] else ["Add acceptance criteria"])
      .ok (.vobj [("requirement_id", (dictGet f "id").getD .vnull),
        ("is_complete", .vbool isComplete),
        ("is_specific", .vbool isSpecific),
        ("has_acceptance_criteria", .vbool hasAcceptance),
        ("suggestions", .vlist (suggestions.map Val.vstr))])
    | .vlist _ => .error (.attributeError "list object has no attribute lower")
    | .vobj _ => .error (.attributeError "dict object has no attribute lower")
    | v => .error (.typeError ("object of type " ++ pyTypeName v ++ " has no len"))
  | v => .error (.attributeError (pyTypeName v ++ " object has no attribute get"))

/-- The validation loop over the requirement list. -/
def RequirementsAgent.validate_list : List Val → Except PyError (List Val)
  | [] => .ok []
  | r :: rs =>
    match RequirementsAgent.validate_one r with
    | .error e => .error e
    | .ok v =>
      match RequirementsAgent.validate_list rs with
      | .error e => .error e
      | .ok rest => .ok (v :: rest)

/-- RequirementsAgent._validate_requirements. -/
def RequirementsAgent.validate_requirements (now : Nat) (fields : List (String × Val)) :
    Except PyError Val :=
  match pyIterate ((dictGet fields "requirements").getD (.vlist [])) with
  | .error e => .error e
  | .ok reqs =>
    match RequirementsAgent.validate_list reqs with
    | .error e => .error e
    | .ok results =>
      .ok (.vobj [("validation_results", .vlist results),
        ("total_requirements", .vnat reqs.length),
        ("validated_at", .vstr (isoformat now))])

/-- RequirementsAgent._prioritize_requirements on the Gemini-free path:
return the raw requirements value with a timestamp. -/
def RequirementsAgent.prioritize_requirements (now : Nat) (fields : List (String × Val)) :
    Except PyError Val :=
  .ok (.vobj [("requirements", (dictGet fields "requirements").getD (.vlist [])),
    ("prioritized_at", .vstr (isoformat now))])

/-- RequirementsAgent.execute_task: raise RuntimeError when the agent is not
ready, else dispatch on task_data.get analysis_type with default
requirements_extraction; an unmatched discriminator raises ValueError
Unknown task type (the UnknownTaskVariant of the spec). -/
def RequirementsAgent.execute_task (isInit : Bool) (now : Nat) (task_data : Val) :
    Except PyError Val :=
  if isInit then
    match task_data with
    | .vobj fields =>
      match (dictGet fields "analysis_type").getD (.vstr "requirements_extraction") with
      | .vstr s =>
        if s == "requirements_extraction" then
          RequirementsAgent.extract_requirements now fields
        else if s == "requirements_validation" then
          RequirementsAgent.validate_requirements now fields
        else if s == "requirements_prioritization" then
          RequirementsAgent.prioritize_requirements now fields
        else .error (.unknownTaskVariant ("Unknown task type: " ++ s))
      | v => .error (.unknownTaskVariant ("Unknown task type: " ++ pyStr v))
    | v => .error (.attributeError (pyTypeName v ++ " object has no attribute get"))
  else .error (.runtimeError "Requirements Agent not initialized")

/-- Per-class Execute entry point. Only RequirementsAgent defines an
execute_task method; the PlanningAgent, DevelopmentAgent, TestingAgent and
CommunicationAgent classes define none, so the attribute access
agent.execute_task performed by AgentManager.execute_task raises
AttributeError for those four classes. -/
def agentClassExecute (a : AgentType) (isInit : Bool) (now : Nat) (task_data : Val) :
    Except PyError Val :=
  match a with
  | .requirements => RequirementsAgent.execute_task isInit now task_data
  | .planning => .error (.attributeError "PlanningAgent object has no attribute execute_task")
  | .development => .error (.attributeError "DevelopmentAgent object has no attribute execute_task")
  | .testing => .error (.attributeError "TestingAgent object has no attribute execute_task")
  | .communication => .error (.attributeError "CommunicationAgent object has no attribute execute_task")

/-- Recogniser for the UnknownTaskVariant failure of the spec. -/
def isUnknownVariant {α : Type} : Except PyError α → Bool
  | .error (.unknownTaskVariant _) => true
  | _ => false

/-- A task record, the AgentTask dataclass of agent_manager.py. Timestamps
are naturals, status is the literal status string of the source. -/
structure AgentTask where
  id : String
  agent_type : AgentType
  project_id : Int
  task_data : Val
  priority : String
  status : String
  created_at : Option Nat
  completed_at : Option Nat
  result : Option Val
  error : Option String

/-- The mutable task registry self.tasks of AgentManager, an
insertion-ordered dict from task id to task. The agents dict of the source
is modelled separately by the behavior argument of execute_task. -/
structure ManagerState where
  tasks : List (String × AgentTask)

/-- The task id computed by AgentManager.create_task, the f-string
agent_type.value underscore project_id underscore datetime.now timestamp;
the wall-clock reading is the now argument. -/
def taskIdFor (a : AgentType) (project_id : Int) (now : Nat) : String :=
  agentTypeValue a ++ ("_" ++ (toString project_id ++ ("_" ++ toString now)))

/-- AgentManager.create_task: build the task id from the capability, the
project id and the current wall-clock reading, insert the pending task into
the tasks dict (overwriting any task already stored under that id) and
return the id. -/
def AgentManager.create_task (now : Nat) (st : ManagerState) (agent_type : AgentType)
    (project_id : Int) (task_data : Val) (priority : String) : String × ManagerState :=
  let task_id := taskIdFor agent_type project_id now
  let task : AgentTask :=
    { id := task_id, agent_type := agent_type,
      project_id := project_id, task_data := task_data, priority := priority,
      status := "pending", created_at := some now, completed_at := none,
      result := none, error := none }
  (task_id, { tasks := dictInsert st.tasks task_id task })

/-- The registered agents and their world-dependent execute_task behaviour
at one invocation: none models a capability absent from the agents dict. -/
def AgentBehavior : Type := AgentType → Option (Val → Except PyError Val)

/-- AgentManager.execute_task: unknown id raises ValueError Task not found
untouched state; missing agent raises ValueError Agent type not found; else
the task is marked running, the agent executes its task_data, and the task
is finally overwritten as completed (result and completed_at set) or failed
(error set, prior result and completed_at left in place), re-raising the
agent error. -/
def AgentManager.execute_task (behavior : AgentBehavior) (now : Nat)
    (st : ManagerState) (task_id : String) : Except PyError Val × ManagerState :=
  match dictGet st.tasks task_id with
  | none => (.error (.taskNotFound ("Task " ++ task_id ++ " not found")), st)
  | some task =>
    match behavior task.agent_type with
    | none =>
      (.error (.agentUnavailable ("Agent type " ++ agentTypeValue task.agent_type ++ " not found")), st)
    | some exec =>
      match exec task.task_data with
      | .ok result =>
        let task2 :=
          { task with status := "completed", completed_at := some now,
                      result := some result }
        (.ok result, { tasks := dictInsert st.tasks task_id task2 })
      | .error e =>
        let task2 := { task with status := "failed", error := some (errStr e) }
        (.error e, { tasks := dictInsert st.tasks task_id task2 })

/-- The fixed stage order of AgentManager.execute_workflow: requirements,
planning, development, testing, communication. -/
def workflowStages : List (String × AgentType) :=
  [("requirements", .requirements), ("planning", .planning),
   ("development", .development), ("testing", .testing),
   ("communication", .communication)]

/-- Membership lookup key in workflow_data of one stage: a dict holds its
key bindings, any other value holds none. -/
def vGet : Val → String → Option Val
  | .vobj fields, k => dictGet fields k
  | _, _ => none

/-- One stage block of AgentManager.execute_workflow: skipped when the
stage key is absent; otherwise create a task from the sub-payload and
execute it at once, appending its result under the stage name; an error
short-circuits every later stage while keeping the mutated task store. -/
def runStage (behavior : AgentBehavior) (now : Nat) (project_id : Int) (wd : Val)
    (acc : Except PyError (List (String × Val)) × ManagerState)
    (name : String) (a : AgentType) :
    Except PyError (List (String × Val)) × ManagerState :=
  match acc with
  | (.error e, st) => (.error e, st)
  | (.ok results, st) =>
    match vGet wd name with
    | none => (.ok results, st)
    | some sub =>
      let c := AgentManager.create_task now st a project_id sub "medium"
      match AgentManager.execute_task behavior now c.2 c.1 with
      | (.ok r, st2) => (.ok (results ++ [(name, r)]), st2)
      | (.error e, st2) => (.error e, st2)

/-- AgentManager.execute_workflow: the five conditional stage blocks in
their fixed source order, threading the results dict and the task store. -/
def AgentManager.execute_workflow (behavior : AgentBehavior) (now : Nat)
    (st : ManagerState) (project_id : Int) (workflow_data : Val) :
    Except PyError (List (String × Val)) × ManagerState :=
  workflowStages.foldl
    (fun acc (p : String × AgentType) =>
      runStage behavior now project_id workflow_data acc p.1 p.2)
    (.ok [], st)

/-- The status view assembled by AgentManager.get_task_status. -/
structure TaskStatusView where
  id : String
  agent_type : String
  status : String
  created_at : Option Nat
  completed_at : Option Nat
  error : Option String
  result : Option Val

/-- AgentManager.get_task_status: none for an unknown id, else the view of
the stored task. -/
def AgentManager.get_task_status (st : ManagerState) (task_id : String) :
    Option TaskStatusView :=
  match dictGet st.tasks task_id with
  | none => none
  | some task =>
    some { id := task.id, agent_type := agentTypeValue task.agent_type,
           status := task.status, created_at := task.created_at,
           completed_at := task.completed_at, error := task.error,
           result := task.result }

/-- Status of a stored task, a projection used in workflow statements. -/
def taskStatus (st : ManagerState) (task_id : String) : Option String :=
  (dictGet st.tasks task_id).map (fun t => t.status)

/-- An agent object as the orchestrator sees it after construction, with
its readiness flag. -/
structure ConstructedAgent where
  className : String
  ready : Bool
  deriving DecidableEq

/-- Construction of each agent in AgentManager.initialize, which passes
self.mcp_manager to every constructor. RequirementsAgent.init accepts the
mcp_manager argument, DevelopmentAgent, TestingAgent and CommunicationAgent
take it as an optional parameter, but PlanningAgent.init takes no argument
beyond self, so its construction raises TypeError. -/
def constructAgent : AgentType → Except PyError ConstructedAgent
  | .requirements => .ok { className := "RequirementsAgent", ready := false }
  | .planning => .error (.typeError "PlanningAgent.__init__ takes 1 positional argument but 2 were given")
  | .development => .ok { className := "DevelopmentAgent", ready := false }
  | .testing => .ok { className := "TestingAgent", ready := false }
  | .communication => .ok { className := "CommunicationAgent", ready := false }

/-- The orchestrator state touched by AgentManager.initialize: the MCP
manager (brought up first), the agents dict, and the readiness flag. -/
structure OrchestratorState where
  agents : List (AgentType × ConstructedAgent)
  mcpReady : Bool
  managerReady : Bool
  deriving DecidableEq

/-- AgentManager.initialize: return at once when already ready, else bring
up the MCPManager, then construct the five agents in fixed order and store
each into the agents dict, then run every stored agent initialize hook and
set the readiness flag. No construction is guarded by a try block: an agent
constructor exception propagates immediately, leaving later agents
unconstructed, no agent hook run, and the manager not ready. -/
def AgentManager.startup (st : OrchestratorState) : Except PyError Unit × OrchestratorState :=
  if st.managerReady then (.ok (), st)
  else
    let st1 : OrchestratorState := { st with mcpReady := true }
    match constructAgent .requirements with
    | .error e => (.error e, st1)
    | .ok a1 =>
      let st2 := { st1 with agents := dictInsert st1.agents .requirements a1 }
      match constructAgent .planning with
      | .error e => (.error e, st2)
      | .ok a2 =>
        let st3 := { st2 with agents := dictInsert st2.agents .planning a2 }
        match constructAgent .development with
        | .error e => (.error e, st3)
        | .ok a3 =>
          let st4 := { st3 with agents := dictInsert st3.agents .development a3 }
          match constructAgent .testing with
          | .error e => (.error e, st4)
          | .ok a4 =>
            let st5 := { st4 with agents := dictInsert st4.agents .testing a4 }
            match constructAgent .communication with
            | .error e => (.error e, st5)
            | .ok a5 =>
              let st6 := { st5 with agents := dictInsert st5.agents .communication a5 }
              let st7 := { st6 with
                agents := st6.agents.map
                  (fun (p : AgentType × ConstructedAgent) =>
                    (p.1, { p.2 with ready := true })) }
              (.ok (), { st7 with managerReady := true })

/-- One MCP service connection record of MCPManager.connections. -/
structure MCPConnection where
  endpoint : String
  status : String
  last_check : Nat
  error : Option String

/-- The MCPManager connection registry. -/
structure MCPState where
  connections : List (String × MCPConnection)

/-- Outcome of one HTTP post issued by MCPManager.send_message: a 200 with
a parsed JSON body, a non-success status with an error body, or a raised
transport error. -/
inductive HttpOutcome where
  | success : Val → HttpOutcome
  | failure : Nat → String → HttpOutcome
  | transportError : String → HttpOutcome

/-- MCPManager.send_message: ValueError Service not available when the name
has no connection record, ConnectionError Service not connected when the
cached status differs from connected, else post to endpoint slash send and
return the parsed body on 200, raising on anything else. The connection map
is never written. -/
def MCPManager.send_message (http : String → Val → HttpOutcome) (m : MCPState)
    (service : String) (message_data : Val) : Except PyError Val × MCPState :=
  match dictGet m.connections service with
  | none => (.error (.serviceUnknown ("Service " ++ service ++ " not available")), m)
  | some conn =>
    if conn.status == "connected" then
      match http (conn.endpoint ++ "/send") message_data with
      | .success body => (.ok body, m)
      | .failure _ body => (.error (.upstreamError ("Failed to send message: " ++ body)), m)
      | .transportError msg => (.error (.upstreamError msg), m)
    else (.error (.serviceUnavailable ("Service " ++ service ++ " not connected")), m)

/-- Head character of a string, used to separate task ids of different
capabilities. -/
def firstChar (s : String) : Char := s.data.headD " ".front

theorem firstChar_append (s t : String) (h : s.data ≠ []) :
    firstChar (s ++ t) = firstChar s := by
  unfold firstChar
  rw [String.data_append]
  cases hs : s.data with
  | nil => exact absurd hs h
  | cons c cs => simp

theorem agentTypeValue_data_ne_nil (a : AgentType) : (agentTypeValue a).data ≠ [] := by
  cases a <;> simp [agentTypeValue]

/-- Task ids of distinct capabilities differ, whatever the project ids and
timestamps: the capability value is the id prefix and the five values have
pairwise distinct head characters. -/
theorem taskIdFor_ne (a b : AgentType) (p q : Int) (s t : Nat) (h : a ≠ b) :
    taskIdFor a p s ≠ taskIdFor b q t := by
  intro heq
  have hf : firstChar (taskIdFor a p s) = firstChar (taskIdFor b q t) := by rw [heq]
  unfold taskIdFor at hf
  rw [firstChar_append _ _ (agentTypeValue_data_ne_nil a),
    firstChar_append _ _ (agentTypeValue_data_ne_nil b)] at hf
  cases a <;> cases b <;> simp_all [agentTypeValue, firstChar]

theorem taskIdFor_beq_false (a b : AgentType) (p q : Int) (s t : Nat) (h : a ≠ b) :
    (taskIdFor a p s == taskIdFor b q t) = false :=
  beq_eq_false_iff_ne.mpr (taskIdFor_ne a b p q s t h)

/-- Error projection of an execution outcome. -/
def resultErr {α : Type} : Except PyError α → Option PyError
  | .error e => some e
  | .ok _ => none

/-- Registered agents whose execution always succeeds with the fixed
result done. -/
def behaviorAllOk : AgentBehavior := fun _ => some (fun _ => .ok (.vstr "done"))

/-- Registered agents whose execution always raises boom. -/
def behaviorAllFail : AgentBehavior := fun _ => some (fun _ => .error (.agentError "boom"))

/-- Registered agents where only the planning agent raises boom. -/
def behaviorPlanningFails : AgentBehavior := fun a =>
  match a with
  | .planning => some (fun _ => .error (.agentError "boom"))
  | _ => some (fun _ => .ok (.vstr "done"))

/-- Registered agents where only the development agent raises boom. -/
def behaviorDevFails : AgentBehavior := fun a =>
  match a with
  | .development => some (fun _ => .error (.agentError "boom"))
  | _ => some (fun _ => .ok (.vstr "done"))

/-- A store holding one freshly created pending requirements task for
project 1 at tick 100. -/
def demoState1 : ManagerState :=
  (AgentManager.create_task 100 { tasks := [] } .requirements 1 (.vobj []) "medium").2

/-- The store after the demo task completed successfully at tick 100. -/
def demoState2 : ManagerState :=
  (AgentManager.execute_task behaviorAllOk 100 demoState1 "requirements_1_100").2

/-- A second, failing execution of the already completed demo task at
tick 200. -/
def demoRun2 : Except PyError Val × ManagerState :=
  AgentManager.execute_task behaviorAllFail 200 demoState2 "requirements_1_100"

/-- C3: the task id is derived from the wall clock alone beside capability
and project, so two CreateTask calls for the same capability and project
within one clock tick return the identical id, and the second insert
overwrites the first task: after both calls the store holds one task, not
two. This evaluates the code at the failing input of the claim that all
task ids are pairwise unique. -/
theorem create_task_same_tick_collision :
    (AgentManager.create_task 1700000000 { tasks := [] }
      .requirements 1 (.vobj []) "medium").1 =
    (AgentManager.create_task 1700000000
      (AgentManager.create_task 1700000000 { tasks := [] }
        .requirements 1 (.vobj []) "medium").2
      .requirements 1 (.vobj []) "medium").1 ∧
    (AgentManager.create_task 1700000000
      (AgentManager.create_task 1700000000 { tasks := [] }
        .requirements 1 (.vobj []) "medium").2
      .requirements 1 (.vobj []) "medium").2.tasks.length = 1 :=
  ⟨rfl, rfl⟩

/-- C8: ExecuteTask on an id absent from the task store fails with the
TaskNotFound error and returns the store completely unchanged: no task is
created and no stored task is touched. -/
theorem execute_task_unknown_id (behavior : AgentBehavior) (now : Nat)
    (st : ManagerState) (task_id : String)
    (h : dictGet st.tasks task_id = none) :
    AgentManager.execute_task behavior now st task_id =
      (.error (.taskNotFound ("Task " ++ task_id ++ " not found")), st) := by
  unfold AgentManager.execute_task
  rw [h]

/-- Witness for execute_task_unknown_id at a store holding one task. -/
theorem execute_task_unknown_id_witness :
    AgentManager.execute_task behaviorAllOk 5 demoState1 "missing_task" =
      (.error (.taskNotFound ("Task " ++ "missing_task" ++ " not found")), demoState1) :=
  execute_task_unknown_id behaviorAllOk 5 demoState1 "missing_task" rfl

/-- C2 counterexample: startup of a fresh orchestrator brings up the MCP
manager and constructs the Requirements agent, then always fails at the
PlanningAgent constructor, whose signature rejects the mcp manager
argument. The TypeError propagates: it is not recorded per-agent, the
Development, Testing and Communication agents are never constructed, no
agent hook runs, and the manager stays unready, refuting the claim that a
failing agent never blocks startup of the rest. -/
theorem startup_aborts_on_planning_failure :
    AgentManager.startup { agents := [], mcpReady := false, managerReady := false } =
      (.error (.typeError "PlanningAgent.__init__ takes 1 positional argument but 2 were given"),
       { agents := [(.requirements, { className := "RequirementsAgent", ready := false })],
         mcpReady := true, managerReady := false }) :=
  rfl

/-- C2 amended: Initialize brings up the ServiceRegistry first and then
constructs the Agents in a fixed order, but an agent construction failure
is not caught: from any unready state the PlanningAgent constructor
TypeError propagates immediately, leaving only the Requirements agent
constructed and the manager unready. -/
theorem startup_failure_blocks_rest (st : OrchestratorState)
    (h : st.managerReady = false) :
    AgentManager.startup st =
      (.error (.typeError "PlanningAgent.__init__ takes 1 positional argument but 2 were given"),
       { agents := dictInsert st.agents .requirements
           { className := "RequirementsAgent", ready := false },
         mcpReady := true, managerReady := st.managerReady }) := by
  simp [AgentManager.startup, h, constructAgent]

/-- Witness for startup_failure_blocks_rest on an unready state that
already holds a Development agent record. -/
theorem startup_failure_blocks_rest_witness :
    AgentManager.startup
      { agents := [(.development, { className := "DevelopmentAgent", ready := false })],
        mcpReady := false, managerReady := false } =
      (.error (.typeError "PlanningAgent.__init__ takes 1 positional argument but 2 were given"),
       { agents := [(.development, { className := "DevelopmentAgent", ready := false }),
                    (.requirements, { className := "RequirementsAgent", ready := false })],
         mcpReady := true, managerReady := false }) :=
  startup_failure_blocks_rest
    { agents := [(.development, { className := "DevelopmentAgent", ready := false })],
      mcpReady := false, managerReady := false } rfl

/-- C7 counterexample: the completed demo task accepts a further execution:
the second ExecuteTask call moves it from completed back through running to
failed and returns the agent error boom, not an InvalidTransition failure,
refuting the claim that terminal states accept no further transitions. -/
theorem terminal_task_reexecution_overwrites :
    taskStatus demoState2 "requirements_1_100" = some "completed" ∧
    taskStatus demoRun2.2 "requirements_1_100" = some "failed" ∧
    resultErr demoRun2.1 = some (.agentError "boom") :=
  ⟨rfl, rfl, rfl⟩

/-- C7 amended: the state machine is entirely unguarded: ExecuteTask on a
task whose status is already terminal re-runs it, overwriting the status
(a failing re-execution turns completed into failed) and returning the
agent error; no InvalidTransition error is ever raised by the code. -/
theorem transitions_unguarded (behavior : AgentBehavior) (now : Nat)
    (st : ManagerState) (tid : String) (task : AgentTask)
    (f : Val → Except PyError Val) (e : PyError)
    (hget : dictGet st.tasks tid = some task)
    (_hterm : task.status = "completed" ∨ task.status = "failed")
    (hb : behavior task.agent_type = some f)
    (hf : f task.task_data = .error e) :
    AgentManager.execute_task behavior now st tid =
      (.error e, { tasks := dictInsert st.tasks tid { task with status := "failed", error := some (errStr e) } }) := by
  simp only [AgentManager.execute_task, hget, hb, hf]

/-- Witness for transitions_unguarded at the completed demo task. -/
theorem transitions_unguarded_witness :
    AgentManager.execute_task behaviorAllFail 200 demoState2 "requirements_1_100" =
      (.error (.agentError "boom"),
       { tasks := dictInsert demoState2.tasks "requirements_1_100"
           { id := "requirements_1_100", agent_type := .requirements, project_id := 1,
             task_data := .vobj [], priority := "medium", status := "failed",
             created_at := some 100, completed_at := some 100,
             result := some (.vstr "done"), error := some "boom" } }) :=
  transitions_unguarded behaviorAllFail 200 demoState2 "requirements_1_100"
    { id := "requirements_1_100", agent_type := .requirements, project_id := 1,
      task_data := .vobj [], priority := "medium", status := "completed",
      created_at := some 100, completed_at := some 100,
      result := some (.vstr "done"), error := none }
    (fun _ => .error (.agentError "boom")) (.agentError "boom")
    rfl (Or.inl rfl) rfl rfl

/-- C6 counterexample: after the demo task completed with result done, a
second, failing execution reports status failed with a non-null error but
with the stale result of the earlier success still stored, not the null
result the claim requires on the failure path. -/
theorem execute_task_failure_keeps_stale_result :
    resultErr demoRun2.1 = some (.agentError "boom") ∧
    AgentManager.get_task_status demoRun2.2 "requirements_1_100" =
      some { id := "requirements_1_100", agent_type := "requirements",
             status := "failed", created_at := some 100, completed_at := some 100,
             error := some "boom", result := some (.vstr "done") } :=
  ⟨rfl, rfl⟩

/-- C6 amended: for an existing task whose capability has a registered
agent, a successful execution returns the result and the task then reports
status completed, completed_at set to the execution tick and the result
stored; a failing execution propagates the error and the task then reports
status failed with a non-null error text, its result field keeping the
value it had before the call (null exactly when the task never completed
before). -/
theorem execute_task_status_reporting (behavior : AgentBehavior) (now : Nat)
    (st : ManagerState) (tid : String) (task : AgentTask)
    (f : Val → Except PyError Val)
    (hget : dictGet st.tasks tid = some task)
    (hb : behavior task.agent_type = some f) :
    (∀ r, f task.task_data = .ok r →
      AgentManager.execute_task behavior now st tid =
        (.ok r, { tasks := dictInsert st.tasks tid { task with status := "completed", completed_at := some now, result := some r } }) ∧
      AgentManager.get_task_status (AgentManager.execute_task behavior now st tid).2 tid =
        some { id := task.id, agent_type := agentTypeValue task.agent_type,
               status := "completed", created_at := task.created_at,
               completed_at := some now, error := task.error, result := some r }) ∧
    (∀ e, f task.task_data = .error e →
      AgentManager.execute_task behavior now st tid =
        (.error e, { tasks := dictInsert st.tasks tid { task with status := "failed", error := some (errStr e) } }) ∧
      AgentManager.get_task_status (AgentManager.execute_task behavior now st tid).2 tid =
        some { id := task.id, agent_type := agentTypeValue task.agent_type,
               status := "failed", created_at := task.created_at,
               completed_at := task.completed_at, error := some (errStr e),
               result := task.result }) := by
  constructor
  · intro r hr
    have he : AgentManager.execute_task behavior now st tid =
        (.ok r, { tasks := dictInsert st.tasks tid { task with status := "completed", completed_at := some now, result := some r } }) := by
      simp only [AgentManager.execute_task, hget, hb, hr]
    refine ⟨he, ?_⟩
    rw [he]
    unfold AgentManager.get_task_status
    rw [dictGet_insert_self]
  · intro e hee
    have he : AgentManager.execute_task behavior now st tid =
        (.error e, { tasks := dictInsert st.tasks tid { task with status := "failed", error := some (errStr e) } }) := by
      simp only [AgentManager.execute_task, hget, hb, hee]
    refine ⟨he, ?_⟩
    rw [he]
    unfold AgentManager.get_task_status
    rw [dictGet_insert_self]

/-- Witness for execute_task_status_reporting: the success branch on the
fresh pending demo task. -/
theorem execute_task_status_reporting_witness :
    AgentManager.execute_task behaviorAllOk 100 demoState1 "requirements_1_100" =
      (.ok (.vstr "done"),
       { tasks := dictInsert demoState1.tasks "requirements_1_100"
           { id := "requirements_1_100", agent_type := .requirements, project_id := 1,
             task_data := .vobj [], priority := "medium", status := "completed",
             created_at := some 100, completed_at := some 100,
             result := some (.vstr "done"), error := none } }) ∧
    AgentManager.get_task_status
        (AgentManager.execute_task behaviorAllOk 100 demoState1 "requirements_1_100").2
        "requirements_1_100" =
      some { id := "requirements_1_100", agent_type := "requirements",
             status := "completed", created_at := some 100, completed_at := some 100,
             error := none, result := some (.vstr "done") } :=
  (execute_task_status_reporting behaviorAllOk 100 demoState1 "requirements_1_100"
    { id := "requirements_1_100", agent_type := .requirements, project_id := 1,
      task_data := .vobj [], priority := "medium", status := "pending",
      created_at := some 100, completed_at := none, result := none, error := none }
    (fun _ => .ok (.vstr "done")) rfl rfl).1 (.vstr "done") rfl

/-- Recogniser of UnknownTaskVariant on a bare exception, used to carry
the never-UnknownTaskVariant facts across result types. -/
def errIsUV : PyError → Bool
  | .unknownTaskVariant _ => true
  | _ => false

theorem isUnknownVariant_error {α : Type} (e : PyError) :
    isUnknownVariant (α := α) (.error e) = errIsUV e := by
  cases e <;> rfl

theorem isUnknownVariant_pyIterate (v : Val) :
    isUnknownVariant (pyIterate v) = false := by
  cases v <;> rfl

theorem isUnknownVariant_basic (now : Nat) (c : Val) :
    isUnknownVariant (RequirementsAgent.basic_requirement_extraction now c) = false := by
  unfold RequirementsAgent.basic_requirement_extraction
  split
  · split <;> rfl
  · rfl

theorem isUnknownVariant_analyze (now : Nat) (cs : List Val) :
    isUnknownVariant (RequirementsAgent.analyze_conversations now cs) = false := by
  induction cs with
  | nil => rfl
  | cons c cs ih =>
    unfold RequirementsAgent.analyze_conversations
    cases hb : RequirementsAgent.basic_requirement_extraction now c with
    | error e =>
      have hbv := isUnknownVariant_basic now c
      rw [hb] at hbv
      exact hbv
    | ok rs =>
      cases ha : RequirementsAgent.analyze_conversations now cs with
      | error e =>
        rw [ha] at ih
        exact ih
      | ok rest => rfl

theorem isUnknownVariant_extract (now : Nat) (fields : List (String × Val)) :
    isUnknownVariant (RequirementsAgent.extract_requirements now fields) = false := by
  unfold RequirementsAgent.extract_requirements
  split
  · next e hp =>
    have h := isUnknownVariant_pyIterate ((dictGet fields "conversations").getD (.vlist []))
    rw [hp, isUnknownVariant_error] at h
    rw [isUnknownVariant_error]
    exact h
  · next convs hp =>
    split
    · next e ha =>
      have h := isUnknownVariant_analyze now convs
      rw [ha, isUnknownVariant_error] at h
      rw [isUnknownVariant_error]
      exact h
    · rfl

/-- C1 counterexample: the Planning agent class has no Execute method at
all, so executing a payload whose discriminator matches no known sub-type
fails with AttributeError, not with the UnknownTaskVariant failure the
claim requires of all five variants. -/
theorem planning_execute_not_unknown_variant :
    agentClassExecute .planning true 0 (.vobj [("planning_type", .vstr "nonsense")]) =
      .error (.attributeError "PlanningAgent object has no attribute execute_task") ∧
    isUnknownVariant (agentClassExecute .planning true 0
      (.vobj [("planning_type", .vstr "nonsense")])) = false :=
  ⟨rfl, rfl⟩

/-- C1 amended: only the Requirements agent has a discriminator dispatch:
an initialized Requirements agent rejects a payload whose analysis_type is
a string matching none of its three sub-types with the UnknownTaskVariant
failure, while the Planning, Development, Testing and Communication agent
classes define no Execute at all and fail with AttributeError on every
payload, never with UnknownTaskVariant. -/
theorem agent_dispatch_only_requirements :
    (∀ (fields : List (String × Val)) (s : String) (now : Nat),
      dictGet fields "analysis_type" = some (.vstr s) →
      s ≠ "requirements_extraction" → s ≠ "requirements_validation" →
      s ≠ "requirements_prioritization" →
      RequirementsAgent.execute_task true now (.vobj fields) =
        .error (.unknownTaskVariant ("Unknown task type: " ++ s))) ∧
    (∀ (a : AgentType) (isInit : Bool) (now : Nat) (task_data : Val),
      a ≠ .requirements →
      isUnknownVariant (agentClassExecute a isInit now task_data) = false ∧
      ∃ m, agentClassExecute a isInit now task_data = .error (.attributeError m)) := by
  constructor
  · intro fields s now hget h1 h2 h3
    have b1 : (s == "requirements_extraction") = false := beq_eq_false_iff_ne.mpr h1
    have b2 : (s == "requirements_validation") = false := beq_eq_false_iff_ne.mpr h2
    have b3 : (s == "requirements_prioritization") = false := beq_eq_false_iff_ne.mpr h3
    simp only [RequirementsAgent.execute_task, hget, Option.getD, if_true,
      b1, b2, b3, Bool.false_eq_true, if_false]
  · intro a isInit now task_data ha
    cases a with
    | requirements => exact absurd rfl ha
    | planning => exact ⟨rfl, "PlanningAgent object has no attribute execute_task", rfl⟩
    | development => exact ⟨rfl, "DevelopmentAgent object has no attribute execute_task", rfl⟩
    | testing => exact ⟨rfl, "TestingAgent object has no attribute execute_task", rfl⟩
    | communication => exact ⟨rfl, "CommunicationAgent object has no attribute execute_task", rfl⟩

/-- Witness for agent_dispatch_only_requirements: the unknown string zzz on
the Requirements agent, and any payload on the Planning agent. -/
theorem agent_dispatch_only_requirements_witness :
    RequirementsAgent.execute_task true 3 (.vobj [("analysis_type", .vstr "zzz")]) =
      .error (.unknownTaskVariant ("Unknown task type: " ++ "zzz")) ∧
    (∃ m, agentClassExecute .planning true 3 (.vobj []) = .error (.attributeError m)) :=
  ⟨agent_dispatch_only_requirements.1 [("analysis_type", .vstr "zzz")] "zzz" 3 rfl
      (by decide) (by decide) (by decide),
   (agent_dispatch_only_requirements.2 .planning true 3 (.vobj []) (by decide)).2⟩

/-- C10: a payload that entirely lacks the analysis_type key is not
rejected: the discriminator silently defaults to requirements_extraction,
whose handler is executed, and the call never fails with
UnknownTaskVariant. -/
theorem missing_discriminator_defaults_to_extraction
    (fields : List (String × Val)) (now : Nat)
    (h : dictGet fields "analysis_type" = none) :
    RequirementsAgent.execute_task true now (.vobj fields) =
      RequirementsAgent.extract_requirements now fields ∧
    isUnknownVariant (RequirementsAgent.execute_task true now (.vobj fields)) = false := by
  have h1 : RequirementsAgent.execute_task true now (.vobj fields) =
      RequirementsAgent.extract_requirements now fields := by
    simp only [RequirementsAgent.execute_task, h, Option.getD, if_true]
    rfl
  exact ⟨h1, h1 ▸ isUnknownVariant_extract now fields⟩

/-- Witness for missing_discriminator_defaults_to_extraction on a payload
holding one conversation and no analysis_type key. -/
theorem missing_discriminator_defaults_to_extraction_witness :
    RequirementsAgent.execute_task true 7
      (.vobj [("conversations", .vlist [.vobj [("content", .vstr "We need a dashboard. ok.")]])]) =
      RequirementsAgent.extract_requirements 7
        [("conversations", .vlist [.vobj [("content", .vstr "We need a dashboard. ok.")]])] ∧
    isUnknownVariant (RequirementsAgent.execute_task true 7
      (.vobj [("conversations", .vlist [.vobj [("content", .vstr "We need a dashboard. ok.")]])])) = false :=
  missing_discriminator_defaults_to_extraction
    [("conversations", .vlist [.vobj [("content", .vstr "We need a dashboard. ok.")]])] 7 rfl

/-- C9: Send on a name with no connection record fails with the
ServiceUnknown error, Send on a recorded connection whose cached status is
anything other than connected fails with the ServiceUnavailable error, and
in both cases the whole connection registry, hence every other service
record, is returned unchanged. -/
theorem send_message_failure_modes (http : String → Val → HttpOutcome)
    (m : MCPState) (service : String) (message_data : Val) :
    (dictGet m.connections service = none →
      MCPManager.send_message http m service message_data =
        (.error (.serviceUnknown ("Service " ++ service ++ " not available")), m)) ∧
    (∀ conn : MCPConnection, dictGet m.connections service = some conn →
      conn.status ≠ "connected" →
      MCPManager.send_message http m service message_data =
        (.error (.serviceUnavailable ("Service " ++ service ++ " not connected")), m)) := by
  constructor
  · intro h
    simp only [MCPManager.send_message, h]
  · intro conn h hs
    have hb : (conn.status == "connected") = false := beq_eq_false_iff_ne.mpr hs
    simp only [MCPManager.send_message, h, hb, Bool.false_eq_true, if_false]

/-- The sample registry for the Send witness: slack connected, notion in
error state. -/
def sampleRegistry : MCPState :=
  { connections :=
      [("slack", { endpoint := "slack-endpoint", status := "connected",
                   last_check := 0, error := none }),
       ("notion", { endpoint := "notion-endpoint", status := "error",
                    last_check := 0, error := some "timeout" })] }

/-- Witness for send_message_failure_modes: an unconfigured name and the
unreachable notion service, with the registry returned unchanged. -/
theorem send_message_failure_modes_witness :
    MCPManager.send_message (fun _ _ => .transportError "down") sampleRegistry
      "foo" (.vobj []) =
      (.error (.serviceUnknown ("Service " ++ "foo" ++ " not available")), sampleRegistry) ∧
    MCPManager.send_message (fun _ _ => .transportError "down") sampleRegistry
      "notion" (.vobj []) =
      (.error (.serviceUnavailable ("Service " ++ "notion" ++ " not connected")), sampleRegistry) :=
  ⟨(send_message_failure_modes (fun _ _ => .transportError "down") sampleRegistry
      "foo" (.vobj [])).1 rfl,
   (send_message_failure_modes (fun _ _ => .transportError "down") sampleRegistry
      "notion" (.vobj [])).2
     { endpoint := "notion-endpoint", status := "error",
       last_check := 0, error := some "timeout" } rfl (by decide)⟩

theorem dictInsert_insert_same {κ α : Type} [BEq κ] [LawfulBEq κ]
    (l : List (κ × α)) (k : κ) (v w : α) :
    dictInsert (dictInsert l k v) k w = dictInsert l k w := by
  induction l with
  | nil => simp [dictInsert]
  | cons p rest ih =>
    obtain ⟨pk, pv⟩ := p
    by_cases h : pk = k
    · subst h; simp [dictInsert]
    · simp [dictInsert, h, ih]

/-- The task record stored after a stage task is created and completes
successfully with result r. -/
def completedTaskRecord (a : AgentType) (pid : Int) (now : Nat) (sub : Val) (r : Val) :
    AgentTask :=
  { id := taskIdFor a pid now, agent_type := a, project_id := pid, task_data := sub,
    priority := "medium", status := "completed", created_at := some now,
    completed_at := some now, result := some r, error := none }

/-- The task record stored after a stage task is created and fails with
the error text msg. -/
def failedTaskRecord (a : AgentType) (pid : Int) (now : Nat) (sub : Val) (msg : String) :
    AgentTask :=
  { id := taskIdFor a pid now, agent_type := a, project_id := pid, task_data := sub,
    priority := "medium", status := "failed", created_at := some now,
    completed_at := none, result := none, error := some msg }

theorem stage_exec_ok (behavior : AgentBehavior) (now : Nat) (st : ManagerState)
    (a : AgentType) (pid : Int) (sub : Val) (f : Val → Except PyError Val) (r : Val)
    (hb : behavior a = some f) (hr : f sub = .ok r) :
    AgentManager.execute_task behavior now
        (AgentManager.create_task now st a pid sub "medium").2
        (AgentManager.create_task now st a pid sub "medium").1 =
      (.ok r, { tasks := dictInsert st.tasks (taskIdFor a pid now) (completedTaskRecord a pid now sub r) }) := by
  simp only [AgentManager.create_task, AgentManager.execute_task,
    dictGet_insert_self, hb, hr, dictInsert_insert_same, completedTaskRecord]

theorem stage_exec_error (behavior : AgentBehavior) (now : Nat) (st : ManagerState)
    (a : AgentType) (pid : Int) (sub : Val) (f : Val → Except PyError Val) (e : PyError)
    (hb : behavior a = some f) (hr : f sub = .error e) :
    AgentManager.execute_task behavior now
        (AgentManager.create_task now st a pid sub "medium").2
        (AgentManager.create_task now st a pid sub "medium").1 =
      (.error e, { tasks := dictInsert st.tasks (taskIdFor a pid now) (failedTaskRecord a pid now sub (errStr e)) }) := by
  simp only [AgentManager.create_task, AgentManager.execute_task,
    dictGet_insert_self, hb, hr, dictInsert_insert_same, failedTaskRecord]

theorem runStage_error (behavior : AgentBehavior) (now : Nat) (pid : Int) (wd : Val)
    (e : PyError) (st : ManagerState) (name : String) (a : AgentType) :
    runStage behavior now pid wd (.error e, st) name a = (.error e, st) := rfl

theorem runStage_skip (behavior : AgentBehavior) (now : Nat) (pid : Int) (wd : Val)
    (results : List (String × Val)) (st : ManagerState) (name : String) (a : AgentType)
    (h : vGet wd name = none) :
    runStage behavior now pid wd (.ok results, st) name a = (.ok results, st) := by
  simp only [runStage, h]

theorem runStage_ok (behavior : AgentBehavior) (now : Nat) (pid : Int) (wd : Val)
    (results : List (String × Val)) (st : ManagerState) (name : String) (a : AgentType)
    (sub : Val) (f : Val → Except PyError Val) (r : Val)
    (hget : vGet wd name = some sub) (hb : behavior a = some f) (hr : f sub = .ok r) :
    runStage behavior now pid wd (.ok results, st) name a =
      (.ok (results ++ [(name, r)]),
       { tasks := dictInsert st.tasks (taskIdFor a pid now) (completedTaskRecord a pid now sub r) }) := by
  simp only [runStage, hget, stage_exec_ok behavior now st a pid sub f r hb hr]

theorem runStage_fail (behavior : AgentBehavior) (now : Nat) (pid : Int) (wd : Val)
    (results : List (String × Val)) (st : ManagerState) (name : String) (a : AgentType)
    (sub : Val) (f : Val → Except PyError Val) (e : PyError)
    (hget : vGet wd name = some sub) (hb : behavior a = some f) (hr : f sub = .error e) :
    runStage behavior now pid wd (.ok results, st) name a =
      (.error e,
       { tasks := dictInsert st.tasks (taskIdFor a pid now) (failedTaskRecord a pid now sub (errStr e)) }) := by
  simp only [runStage, hget, stage_exec_error behavior now st a pid sub f e hb hr]

/-- The workflow spec requirements, planning, testing used to probe the
stop-on-first-error policy. -/
def wdReqPlanTest : Val :=
  .vobj [("requirements", .vobj []), ("planning", .vobj []), ("testing", .vobj [])]

/-- The workflow spec requirements, development, testing, where the other
failing behaviour raises the same error text at a different stage. -/
def wdReqDevTest : Val :=
  .vobj [("requirements", .vobj []), ("development", .vobj []), ("testing", .vobj [])]

/-- The workflow run whose planning stage fails with boom. -/
def runPlanFail : Except PyError (List (String × Val)) × ManagerState :=
  AgentManager.execute_workflow behaviorPlanningFails 100 { tasks := [] } 42 wdReqPlanTest

/-- The workflow run whose development stage fails with boom. -/
def runDevFail : Except PyError (List (String × Val)) × ManagerState :=
  AgentManager.execute_workflow behaviorDevFails 100 { tasks := [] } 42 wdReqDevTest

/-- C5 counterexample: when the planning stage fails, the whole call fails
and testing is never attempted, but the returned error is exactly the
agent exception boom, bit-identical to the error returned by a different
run in which the development stage fails instead: the returned error does
not identify the failing stage, refuting that part of the claim. -/
theorem workflow_error_does_not_identify_stage :
    resultErr runPlanFail.1 = some (.agentError "boom") ∧
    resultErr runDevFail.1 = some (.agentError "boom") ∧
    runPlanFail.1 = runDevFail.1 ∧
    taskStatus runPlanFail.2 "planning_42_100" = some "failed" ∧
    taskStatus runDevFail.2 "planning_42_100" = none ∧
    taskStatus runDevFail.2 "development_42_100" = some "failed" ∧
    dictContainsKey runPlanFail.2.tasks "testing_42_100" = false :=
  ⟨rfl, rfl, rfl, rfl, rfl, rfl, rfl⟩

/-- C5 amended: in a spec holding requirements, planning and testing, when
the requirements agent succeeds and the planning agent fails, the whole
ExecuteWorkflow call fails and propagates exactly the planning agent error
(which carries no stage name of its own), the planning task is recorded
failed, and the testing stage is never attempted: no testing task ever
enters the store. -/
theorem workflow_stops_on_planning_failure (behavior : AgentBehavior) (now : Nat)
    (pid : Int) (X Y Z : Val) (e : PyError)
    (freq fplan : Val → Except PyError Val) (r : Val)
    (h1 : behavior .requirements = some freq) (h2 : freq X = .ok r)
    (h3 : behavior .planning = some fplan) (h4 : fplan Y = .error e) :
    (AgentManager.execute_workflow behavior now { tasks := [] } pid
      (.vobj [("requirements", X), ("planning", Y), ("testing", Z)])).1 = .error e ∧
    taskStatus (AgentManager.execute_workflow behavior now { tasks := [] } pid
      (.vobj [("requirements", X), ("planning", Y), ("testing", Z)])).2
      (taskIdFor .planning pid now) = some "failed" ∧
    dictContainsKey (AgentManager.execute_workflow behavior now { tasks := [] } pid
      (.vobj [("requirements", X), ("planning", Y), ("testing", Z)])).2.tasks
      (taskIdFor .testing pid now) = false := by
  have hbrp : (taskIdFor .requirements pid now == taskIdFor .planning pid now) = false :=
    taskIdFor_beq_false .requirements .planning pid pid now now (by decide)
  have hbrt : (taskIdFor .requirements pid now == taskIdFor .testing pid now) = false :=
    taskIdFor_beq_false .requirements .testing pid pid now now (by decide)
  have hbpt : (taskIdFor .planning pid now == taskIdFor .testing pid now) = false :=
    taskIdFor_beq_false .planning .testing pid pid now now (by decide)
  have hreq : vGet (.vobj [("requirements", X), ("planning", Y), ("testing", Z)])
      "requirements" = some X := rfl
  have hplan : vGet (.vobj [("requirements", X), ("planning", Y), ("testing", Z)])
      "planning" = some Y := rfl
  have hwf : AgentManager.execute_workflow behavior now { tasks := [] } pid
      (.vobj [("requirements", X), ("planning", Y), ("testing", Z)]) =
      (.error e,
       { tasks := dictInsert
           (dictInsert [] (taskIdFor .requirements pid now)
             (completedTaskRecord .requirements pid now X r))
           (taskIdFor .planning pid now)
           (failedTaskRecord .planning pid now Y (errStr e)) }) := by
    simp only [AgentManager.execute_workflow, workflowStages, List.foldl_cons,
      List.foldl_nil]
    rw [runStage_ok behavior now pid _ [] { tasks := [] } "requirements" .requirements
      X freq r hreq h1 h2]
    simp only [List.nil_append]
    rw [runStage_fail behavior now pid _ [("requirements", r)] _ "planning" .planning
      Y fplan e hplan h3 h4]
    rw [runStage_error, runStage_error, runStage_error]
  rw [hwf]
  refine ⟨rfl, ?_, ?_⟩
  · simp [taskStatus, dictGet, dictInsert, hbrp, beq_self_eq_true, failedTaskRecord]
  · simp [dictContainsKey, dictInsert, hbrp, hbrt, hbpt]

/-- Witness for workflow_stops_on_planning_failure on the concrete run
whose planning agent raises boom. -/
theorem workflow_stops_on_planning_failure_witness :
    (AgentManager.execute_workflow behaviorPlanningFails 100 { tasks := [] } 42
      (.vobj [("requirements", .vobj []), ("planning", .vobj []), ("testing", .vobj [])])).1 =
      .error (.agentError "boom") ∧
    taskStatus (AgentManager.execute_workflow behaviorPlanningFails 100 { tasks := [] } 42
      (.vobj [("requirements", .vobj []), ("planning", .vobj []), ("testing", .vobj [])])).2
      (taskIdFor .planning 42 100) = some "failed" ∧
    dictContainsKey (AgentManager.execute_workflow behaviorPlanningFails 100 { tasks := [] } 42
      (.vobj [("requirements", .vobj []), ("planning", .vobj []), ("testing", .vobj [])])).2.tasks
      (taskIdFor .testing 42 100) = false :=
  workflow_stops_on_planning_failure behaviorPlanningFails 100 42
    (.vobj []) (.vobj []) (.vobj []) (.agentError "boom")
    (fun _ => .ok (.vstr "done")) (fun _ => .error (.agentError "boom"))
    (.vstr "done") rfl rfl rfl rfl

/-- Registered agents built from a total handler: every capability has an
agent and every execution succeeds with the handler value. -/
def totalBehavior (handler : AgentType → Val → Val) : AgentBehavior :=
  fun a => some (fun v => .ok (handler a v))

/-- The sub-payload a present stage passes to its task. -/
def stagePayload (wd : Val) (name : String) : Val := (vGet wd name).getD .vnull

/-- The stages of the fixed workflow order whose key is present in the
spec, in that order. -/
def presentStages (wd : Val) : List (String × AgentType) :=
  workflowStages.filter (fun p => (vGet wd p.1).isSome)

theorem runStages_all_ok (handler : AgentType → Val → Val) (now : Nat) (pid : Int)
    (wd : Val) :
    ∀ (stages : List (String × AgentType)) (results : List (String × Val))
      (ts : List (String × AgentTask)),
      (∀ p ∈ stages, dictContainsKey ts (taskIdFor p.2 pid now) = false) →
      stages.Pairwise (fun p q => p.2 ≠ q.2) →
      stages.foldl (fun acc (p : String × AgentType) =>
          runStage (totalBehavior handler) now pid wd acc p.1 p.2)
        (.ok results, { tasks := ts }) =
      (.ok (results ++ (stages.filter (fun p => (vGet wd p.1).isSome)).map
          (fun p => (p.1, handler p.2 (stagePayload wd p.1)))),
       { tasks := ts ++ (stages.filter (fun p => (vGet wd p.1).isSome)).map
          (fun p => (taskIdFor p.2 pid now,
            completedTaskRecord p.2 pid now (stagePayload wd p.1)
              (handler p.2 (stagePayload wd p.1)))) }) := by
  intro stages
  induction stages with
  | nil =>
    intro results ts hfresh hpw
    simp
  | cons p rest ih =>
    obtain ⟨name, a⟩ := p
    intro results ts hfresh hpw
    obtain ⟨hhead, htail⟩ := List.pairwise_cons.mp hpw
    simp only [List.foldl_cons]
    cases hget : vGet wd name with
    | none =>
      rw [runStage_skip (totalBehavior handler) now pid wd results { tasks := ts }
        name a hget]
      rw [ih results ts (fun q hq => hfresh q (List.mem_cons_of_mem _ hq)) htail]
      simp [List.filter_cons, hget]
    | some sub =>
      have hb : totalBehavior handler a = some (fun v => .ok (handler a v)) := rfl
      have hr : (fun v => (.ok (handler a v) : Except PyError Val)) sub =
          .ok (handler a sub) := rfl
      rw [runStage_ok (totalBehavior handler) now pid wd results { tasks := ts }
        name a sub (fun v => .ok (handler a v)) (handler a sub) hget hb hr]
      have hffst : dictContainsKey ts (taskIdFor a pid now) = false :=
        hfresh (name, a) (List.mem_cons_self _ _)
      rw [dictInsert_not_contains ts _ _ hffst]
      have hfr : ∀ q ∈ rest, dictContainsKey
          (ts ++ [(taskIdFor a pid now,
            completedTaskRecord a pid now sub (handler a sub))])
          (taskIdFor q.2 pid now) = false := by
        intro q hq
        have h1 := hfresh q (List.mem_cons_of_mem _ hq)
        have h2 : (taskIdFor a pid now == taskIdFor q.2 pid now) = false :=
          taskIdFor_beq_false a q.2 pid pid now now (hhead q hq)
        simp [dictContainsKey_append, dictContainsKey, h1, h2]
      rw [ih (results ++ [(name, handler a sub)])
        (ts ++ [(taskIdFor a pid now,
          completedTaskRecord a pid now sub (handler a sub))]) hfr htail]
      simp [List.filter_cons, hget, stagePayload, List.append_assoc]

/-- C4: for every project id, wall-clock tick, total handler and workflow
spec, ExecuteWorkflow from an empty store creates and executes exactly one
task per stage key present in the spec, in the fixed order requirements,
planning, development, testing, communication: the returned map binds
exactly the present stage names, in order, to the handler results, and the
store holds exactly one completed task per present stage, in the same
order; a spec with no stage keys executes zero tasks and returns the empty
map. -/
theorem execute_workflow_stage_structure (handler : AgentType → Val → Val)
    (now : Nat) (pid : Int) (wd : Val) :
    AgentManager.execute_workflow (totalBehavior handler) now { tasks := [] } pid wd =
      (.ok ((presentStages wd).map
          (fun p => (p.1, handler p.2 (stagePayload wd p.1)))),
       { tasks := (presentStages wd).map
          (fun p => (taskIdFor p.2 pid now,
            completedTaskRecord p.2 pid now (stagePayload wd p.1)
              (handler p.2 (stagePayload wd p.1)))) }) := by
  have h := runStages_all_ok handler now pid wd workflowStages [] []
    (fun p _ => rfl) (by decide)
  simpa [AgentManager.execute_workflow, presentStages] using h
